import Mathlib

/-!
Verification of the request-dispatch core of postcard-rpc
(`src/target_server/dispatch_macro.rs`).

The `define_dispatch!` macro generates, for a registration list of endpoints,
a dispatcher with a `dispatch` operation (match on the header key, decode the
body, run the bound handler under its flavor) and an `error` operation
(best-effort transmission of an `ERROR_KEY`-keyed error frame).  We embed the
generated code shallowly: the registration list becomes a list of endpoint
entries, the three `@arm` expansions become Lean functions, and the observable
behaviour of one `dispatch` call is its resulting context plus a trace of
events (reply transmissions, error-frame transmissions, handler execution,
sender cloning, task spawning).  Collaborators that are out of scope
(the `Sender`, the scheduler, the reserved `ERROR_KEY`) are modelled from the
spec via an outcome environment.
-/

namespace PostcardRpc

/-- A routing key on the wire: a fixed-width identifier carried as raw bytes
(the `Key` matched by `hdr.key` in the generated dispatcher). -/
structure Key where
  bytes : List Nat
deriving DecidableEq, Repr

/-- `Key::to_bytes`: the raw bytes of the key, echoed back by the
`UnknownKey` arm (`other.to_bytes()` in the source). -/
def Key.to_bytes (k : Key) : List Nat := k.bytes

/-- Modelled from the spec: the reserved `ERROR_KEY` of `standard_icd`
(that module is not under `src/`): a key distinguished from all application
keys, always carrying `(seq_no, WireError)`. -/
def ERROR_KEY : Key := ⟨[255, 255, 255, 255, 255, 255, 255, 255]⟩

/-- `WireHeader { key, seq_no }`: identifies the endpoint a frame belongs to
and the outstanding call it answers. -/
structure WireHeader where
  key : Key
  seq_no : Nat
deriving DecidableEq, Repr

/-- `standard_icd::WireError`: the closed set of dispatch-level error kinds;
the dispatch macro constructs exactly these four. -/
inductive WireError
  | DeserFailed
  | SerFailed
  | UnknownKey (bytes : List Nat)
  | FailedToSpawn
deriving DecidableEq, Repr

/-- Modelled from the spec: outcome of one `Sender::reply` attempt
(`sender.rs` is not under `src/`): the reply "fails if serialization
overflows the fixed buffer or the transport write fails". -/
inductive TxOutcome
  | ok
  | serOverflow
  | txFailed
deriving DecidableEq, Repr

/-- Environment oracle fixing, for one `dispatch` call, the outcomes of the
out-of-scope collaborators: the inline reply attempt, the (at most one)
error-frame transmission, and scheduler admission of a detached task. -/
structure Env where
  replyOutcome : TxOutcome
  errorTxOk : Bool
  canSpawn : Bool
deriving DecidableEq, Repr

/-- Observable events of one `dispatch` call.  `replyTx`/`errorTx` record a
frame handed to the `Sender` together with its transmission outcome;
`ranHandler` records that an inline handler body executed; `senderCloned`
records a `dispatch.sender()` clone; `spawned` records an admitted detached
unit of work together with the owned inputs moved into it. -/
inductive Event (S Q R : Type)
  | replyTx (key : Key) (seq_no : Nat) (resp : R) (outcome : TxOutcome)
  | errorTx (key : Key) (seq_no : Nat) (err : WireError) (ok : Bool)
  | ranHandler
  | senderCloned
  | spawned (sctx : S) (hdr : WireHeader) (req : Q)
deriving DecidableEq

/-- `true` exactly for a reply frame that was successfully transmitted. -/
def Event.isSentReply {S Q R : Type} : Event S Q R → Bool
  | Event.replyTx _ _ _ TxOutcome.ok => true
  | _ => false

/-- `true` exactly for a reply attempt, whether or not it was transmitted. -/
def Event.isReplyAttempt {S Q R : Type} : Event S Q R → Bool
  | Event.replyTx _ _ _ _ => true
  | _ => false

/-- `true` exactly for an error-frame send operation (best-effort: the frame
is counted whether or not its transmission succeeded). -/
def Event.isErrorSend {S Q R : Type} : Event S Q R → Bool
  | Event.errorTx _ _ _ _ => true
  | _ => false

/-- `true` exactly for an admitted detached unit of work. -/
def Event.isSpawned {S Q R : Type} : Event S Q R → Bool
  | Event.spawned _ _ _ => true
  | _ => false

/-- Modelled from the spec: `Sender::reply` (`sender.rs` is not under `src/`):
serializes the response, keys the frame with the endpoint's key, transmits;
returns `Err` if serialization overflows the fixed buffer or the transport
write fails.  The attempt is recorded as a `replyTx` event. -/
def Sender.reply {S Q R : Type} (env : Env) (key : Key) (seq_no : Nat)
    (resp : R) : Except Unit Unit × List (Event S Q R) :=
  ((if env.replyOutcome = TxOutcome.ok then Except.ok () else Except.error ()),
    [Event.replyTx key seq_no resp env.replyOutcome])

/-- Modelled from the spec: `Sender::reply_keyed` (`sender.rs` is not under
`src/`): as `reply` but with an explicit key, used for the `ERROR_KEY` case. -/
def Sender.reply_keyed {S Q R : Type} (env : Env) (seq_no : Nat) (key : Key)
    (err : WireError) : Except Unit Unit × List (Event S Q R) :=
  ((if env.errorTxOk then Except.ok () else Except.error ()),
    [Event.errorTx key seq_no err env.errorTxOk])

/-- The generated `Dispatch::error` (dispatch_macro.rs lines 174-181):
`let _ = self.sender.reply_keyed(seq_no, ERROR_KEY, &error).await;` — one
transmission attempt whose result is discarded. -/
def error {S Q R : Type} (env : Env) (seq_no : Nat) (err : WireError) :
    List (Event S Q R) :=
  (Sender.reply_keyed env seq_no ERROR_KEY err).2

/-- The `@arm blocking` expansion (dispatch_macro.rs lines 60-68): run the
handler synchronously, attempt the reply, and on `Err` send `SerFailed`. -/
def arm_blocking {C S Q R : Type} (handler : C → WireHeader → Q → C × R)
    (resp_key : Key) (env : Env) (context : C) (header : WireHeader) (req : Q) :
    C × List (Event S Q R) :=
  let hr := handler context header req
  match @Sender.reply S Q R env resp_key header.seq_no hr.2 with
  | (Except.ok _, evs) => (hr.1, Event.ranHandler :: evs)
  | (Except.error _, evs) =>
      (hr.1, Event.ranHandler :: evs
        ++ error env header.seq_no WireError.SerFailed)

/-- The `@arm async` expansion (dispatch_macro.rs lines 70-78): textually
identical to the blocking arm except that the handler call is awaited; the
await completes on the same logical dispatch operation, so in the embedding
the suspension is invisible. -/
def arm_async {C S Q R : Type} (handler : C → WireHeader → Q → C × R)
    (resp_key : Key) (env : Env) (context : C) (header : WireHeader) (req : Q) :
    C × List (Event S Q R) :=
  let hr := handler context header req
  match @Sender.reply S Q R env resp_key header.seq_no hr.2 with
  | (Except.ok _, evs) => (hr.1, Event.ranHandler :: evs)
  | (Except.error _, evs) =>
      (hr.1, Event.ranHandler :: evs
        ++ error env header.seq_no WireError.SerFailed)

/-- The `@arm spawn` expansion (dispatch_macro.rs lines 80-89):
`let context = SpawnContext::spawn_ctxt($context);` then
`spawner.spawn($handler(context, hdr.clone(), req, dispatch.sender()))` —
the projection and the sender clone are evaluated while building the task,
before admission is decided; on admission failure `FailedToSpawn` is sent
and the handler body never runs. -/
def arm_spawn {C S Q R : Type} (spawn_ctxt : C → C × S) (env : Env)
    (context : C) (header : WireHeader) (req : Q) :
    C × List (Event S Q R) :=
  let cs := spawn_ctxt context
  if env.canSpawn then
    (cs.1, [Event.senderCloned, Event.spawned cs.2 header req])
  else
    (cs.1, Event.senderCloned ::
      error env header.seq_no WireError.FailedToSpawn)

/-- The execution flavor bound to an endpoint at registration time
(the `$flavor:tt` of the macro: `blocking`, `async` or `spawn`). -/
inductive Flavor
  | blocking
  | async
  | spawn
deriving DecidableEq, Repr

/-- One line of the registration list `$endpoint => $flavor $handler`:
the endpoint's `REQ_KEY`, the key its replies are sent under, the decoder
`postcard::from_bytes::<Request>`, the flavor and the inline handler
(`&mut Context` modelled as state passing). -/
structure EndpointEntry (C S Q R : Type) where
  req_key : Key
  resp_key : Key
  from_bytes : List Nat → Option Q
  flavor : Flavor
  handler : C → WireHeader → Q → C × R

/-- The generated routing match: the first entry whose `REQ_KEY` equals the
header key (with a duplicate-free table there is at most one). -/
def find_entry {C S Q R : Type} (table : List (EndpointEntry C S Q R))
    (k : Key) : Option (EndpointEntry C S Q R) :=
  table.find? (fun e => decide (e.req_key = k))

/-- The generated `Dispatch::dispatch` (dispatch_macro.rs lines 135-172):
match `hdr.key` against the registered `REQ_KEY`s; no match sends
`UnknownKey(other.to_bytes())`; on a match, a failed decode sends
`DeserFailed`, otherwise the flavor's arm runs.  A total function: every
call returns. -/
def dispatch {C S Q R : Type} (table : List (EndpointEntry C S Q R))
    (spawn_ctxt : C → C × S) (env : Env) (context : C) (hdr : WireHeader)
    (body : List Nat) : C × List (Event S Q R) :=
  match find_entry table hdr.key with
  | some e =>
    match e.from_bytes body with
    | none => (context, error env hdr.seq_no WireError.DeserFailed)
    | some req =>
      match e.flavor with
      | Flavor.blocking => arm_blocking e.handler e.resp_key env context hdr req
      | Flavor.async => arm_async e.handler e.resp_key env context hdr req
      | Flavor.spawn => arm_spawn spawn_ctxt env context hdr req
  | none =>
    (context, error env hdr.seq_no (WireError.UnknownKey hdr.key.to_bytes))

/-- Modelled from the spec: the generation-time duplicate-key rejection.
In the source this is `#[deny(unreachable_patterns)]` on the generated match
(dispatch_macro.rs lines 140-144): a duplicated `REQ_KEY` makes an arm
unreachable and the build fails; here a table with duplicate keys is
refused by the constructor. -/
def build_routing_table {C S Q R : Type}
    (table : List (EndpointEntry C S Q R)) :
    Option (List (EndpointEntry C S Q R)) :=
  if (table.map EndpointEntry.req_key).Nodup then some table else none

/-- One dispatch call followed by a later mutation `f` of the Dispatcher's
context (the Dispatcher may mutate the `Context` again before a detached
unit of work finishes); the trace of the dispatch call is already fixed. -/
def dispatch_then_mutate {C S Q R : Type}
    (table : List (EndpointEntry C S Q R)) (spawn_ctxt : C → C × S)
    (env : Env) (context : C) (hdr : WireHeader) (body : List Nat)
    (f : C → C) : C × List (Event S Q R) :=
  let r := dispatch table spawn_ctxt env context hdr body
  (f r.1, r.2)

/-- `fake::TestContext` (dispatch_macro.rs lines 389-392). -/
structure TestContext where
  a : Nat
  b : Nat
deriving DecidableEq, Repr

/-- `fake::TestSpawnContext` (dispatch_macro.rs lines 402-404). -/
structure TestSpawnContext where
  b : Nat
deriving DecidableEq, Repr

/-- `fake::TestContext::spawn_ctxt` (dispatch_macro.rs lines 394-400):
returns `TestSpawnContext { b: self.b }`; the `&mut self` receiver is
modelled by returning the (here unchanged) context alongside the value. -/
def TestContext.spawn_ctxt (c : TestContext) :
    TestContext × TestSpawnContext :=
  (c, ⟨c.b⟩)

/-- Concrete key standing for `AlphaEndpoint::REQ_KEY` in the `fake` table. -/
def alphaKey : Key := ⟨[1, 0, 0, 0, 0, 0, 0, 0]⟩

/-- Concrete key standing for `DeltaEndpoint::REQ_KEY` in the `fake` table. -/
def deltaKey : Key := ⟨[4, 0, 0, 0, 0, 0, 0, 0]⟩

/-- Concrete key standing for `EpsilonEndpoint::REQ_KEY` in the `fake` table. -/
def epsilonKey : Key := ⟨[5, 0, 0, 0, 0, 0, 0, 0]⟩

/-- Test fixture for `AlphaEndpoint => async test_alpha_handler`: requests
decode from the first payload byte (so the empty body fails to decode). -/
def alphaEntry : EndpointEntry TestContext TestSpawnContext Nat Nat :=
  { req_key := alphaKey
    resp_key := ⟨[1, 1, 0, 0, 0, 0, 0, 0]⟩
    from_bytes := List.head?
    flavor := Flavor.async
    handler := fun c h r => ({ c with a := c.a + 1 }, r + h.seq_no) }

/-- Test fixture for `DeltaEndpoint => blocking test_delta_handler`. -/
def deltaEntry : EndpointEntry TestContext TestSpawnContext Nat Nat :=
  { req_key := deltaKey
    resp_key := ⟨[4, 1, 0, 0, 0, 0, 0, 0]⟩
    from_bytes := List.head?
    flavor := Flavor.blocking
    handler := fun c _ r => ({ c with b := c.b + 1 }, r * 2) }

/-- Test fixture for `EpsilonEndpoint => spawn test_epsilon_handler_task`
(the detached handler body lives outside `dispatch`, so the entry's inline
handler field is never reached on this flavor). -/
def epsilonEntry : EndpointEntry TestContext TestSpawnContext Nat Nat :=
  { req_key := epsilonKey
    resp_key := ⟨[5, 1, 0, 0, 0, 0, 0, 0]⟩
    from_bytes := List.head?
    flavor := Flavor.spawn
    handler := fun c _ r => (c, r) }

/-- The `fake` registration table used for concrete runs. -/
def testTable : List (EndpointEntry TestContext TestSpawnContext Nat Nat) :=
  [alphaEntry, deltaEntry, epsilonEntry]

/-- A spawn-context projection that also mutates the context, exercising the
`&mut self` receiver of `SpawnContext::spawn_ctxt`. -/
def mutatingSpawnCtxt (c : TestContext) : TestContext × TestSpawnContext :=
  ({ c with a := c.a + 1 }, ⟨c.b⟩)


/-- C1: for every incoming frame whose header key matches no registered
endpoint's REQ_KEY, `dispatch` sends exactly one error frame keyed by the
reserved ERROR_KEY carrying `UnknownKey` with the raw bytes of that exact key
and the frame's original `seq_no`, then returns (the model is a total
function, so it neither panics nor hangs); the trace shows no handler ran
and the context is untouched. -/
theorem claim_C1_unknown_key {C S Q R : Type}
    (table : List (EndpointEntry C S Q R)) (sc : C → C × S) (env : Env)
    (ctx : C) (hdr : WireHeader) (body : List Nat)
    (h : ∀ e ∈ table, e.req_key ≠ hdr.key) :
    dispatch table sc env ctx hdr body
      = (ctx, [Event.errorTx ERROR_KEY hdr.seq_no
          (WireError.UnknownKey hdr.key.to_bytes) env.errorTxOk]) := by
  have hf : find_entry table hdr.key = none := by
    rw [find_entry, List.find?_eq_none]
    intro e he
    simpa using h e he
  simp [dispatch, hf, error, Sender.reply_keyed]

/-- Witness for C1 at the `fake` table and the unregistered key `[9]`. -/
theorem claim_C1_witness :
    dispatch testTable TestContext.spawn_ctxt (Env.mk TxOutcome.ok true true)
      (TestContext.mk 1 2) (WireHeader.mk (Key.mk [9]) 2) []
      = (TestContext.mk 1 2,
         [Event.errorTx ERROR_KEY 2 (WireError.UnknownKey [9]) true]) :=
  claim_C1_unknown_key _ _ _ _ _ _ (by decide)

/-- C2 counterexample: the claim says a `SerFailed` error frame is sent if
and only if encoding the response fails, and in particular not when encoding
succeeds but the transport write fails.  On a run where the reply outcome is
`txFailed` (serialization succeeded, the transport write failed), the
generated arm still sends `SerFailed`, because it reacts to `is_err()` of the
whole reply call. -/
theorem claim_C2_counterexample :
    (Env.mk TxOutcome.txFailed true true).replyOutcome ≠ TxOutcome.serOverflow
    ∧ (dispatch testTable TestContext.spawn_ctxt
          (Env.mk TxOutcome.txFailed true true) (TestContext.mk 0 0)
          (WireHeader.mk deltaKey 7) [3]).2
        = [Event.ranHandler,
           Event.replyTx deltaEntry.resp_key 7 6 TxOutcome.txFailed,
           Event.errorTx ERROR_KEY 7 WireError.SerFailed true] := by
  exact ⟨by decide, by decide⟩

/-- C2 (amended): for every inline (blocking or async) handler invocation
whose response is successfully computed, a `SerFailed` error frame carrying
the original `seq_no` is sent if and only if the reply call fails — that is,
if serialization overflows the fixed buffer or the transport write fails;
the two failure causes are not distinguished by the generated code. -/
theorem claim_C2_serfailed_iff_reply_err {C S Q R : Type}
    (handler : C → WireHeader → Q → C × R) (resp_key : Key) (env : Env)
    (ctx : C) (hdr : WireHeader) (req : Q) :
    (arm_blocking (S := S) handler resp_key env ctx hdr req).2.filter
        Event.isErrorSend
      = (if env.replyOutcome = TxOutcome.ok then []
         else [Event.errorTx ERROR_KEY hdr.seq_no WireError.SerFailed
           env.errorTxOk])
    ∧ (arm_async (S := S) handler resp_key env ctx hdr req).2.filter
        Event.isErrorSend
      = (if env.replyOutcome = TxOutcome.ok then []
         else [Event.errorTx ERROR_KEY hdr.seq_no WireError.SerFailed
           env.errorTxOk]) := by
  cases henv : env.replyOutcome <;>
    simp [arm_blocking, arm_async, Sender.reply, error, Sender.reply_keyed,
      henv, Event.isErrorSend]

/-- C3: for every frame whose key matches a registered endpoint but whose
body fails to decode as that endpoint's Request type, `dispatch` sends
exactly one `DeserFailed` error frame carrying the same `seq_no` and
returns; the trace shows the bound handler never executed. -/
theorem claim_C3_deser_failed {C S Q R : Type}
    (table : List (EndpointEntry C S Q R)) (sc : C → C × S) (env : Env)
    (ctx : C) (hdr : WireHeader) (body : List Nat)
    (e : EndpointEntry C S Q R)
    (hfind : find_entry table hdr.key = some e)
    (hdec : e.from_bytes body = none) :
    dispatch table sc env ctx hdr body
      = (ctx, [Event.errorTx ERROR_KEY hdr.seq_no WireError.DeserFailed
          env.errorTxOk]) := by
  simp [dispatch, hfind, hdec, error, Sender.reply_keyed]

/-- Witness for C3: the delta endpoint requires at least one payload byte,
so the empty body fails to decode. -/
theorem claim_C3_witness :
    dispatch testTable TestContext.spawn_ctxt (Env.mk TxOutcome.ok true true)
      (TestContext.mk 1 2) (WireHeader.mk deltaKey 9) []
      = (TestContext.mk 1 2,
         [Event.errorTx ERROR_KEY 9 WireError.DeserFailed true]) :=
  claim_C3_deser_failed _ _ _ _ _ _ deltaEntry rfl rfl

/-- C4: per `dispatch` call on a frame bound to a non-detached flavor,
exactly one outbound frame is sent — the reply (counted when its
transmission succeeds) or one error frame (counted when the best-effort
send operation is performed, per the error-protocol policy) — never both
and never zero; for the detached flavor (once the request has decoded)
`dispatch` itself attempts no reply, its only possible frame being the
`FailedToSpawn` error on admission failure. -/
theorem claim_C4_one_frame_per_call {C S Q R : Type} :
    (∀ (table : List (EndpointEntry C S Q R)) (sc : C → C × S) (env : Env)
        (ctx : C) (hdr : WireHeader) (body : List Nat)
        (e : EndpointEntry C S Q R),
        find_entry table hdr.key = some e → e.flavor ≠ Flavor.spawn →
        (dispatch table sc env ctx hdr body).2.countP Event.isSentReply
          + (dispatch table sc env ctx hdr body).2.countP Event.isErrorSend
          = 1)
    ∧ (∀ (table : List (EndpointEntry C S Q R)) (sc : C → C × S) (env : Env)
        (ctx : C) (hdr : WireHeader) (body : List Nat)
        (e : EndpointEntry C S Q R) (req : Q),
        find_entry table hdr.key = some e → e.flavor = Flavor.spawn →
        e.from_bytes body = some req →
        (dispatch table sc env ctx hdr body).2.countP Event.isReplyAttempt = 0
        ∧ (dispatch table sc env ctx hdr body).2.filter Event.isErrorSend
            = (if env.canSpawn then []
               else [Event.errorTx ERROR_KEY hdr.seq_no
                 WireError.FailedToSpawn env.errorTxOk])) := by
  constructor
  · intro table sc env ctx hdr body e hfind hflav
    cases hdec : e.from_bytes body with
    | none =>
        simp [dispatch, hfind, hdec, error, Sender.reply_keyed,
          Event.isSentReply, Event.isErrorSend]
    | some req =>
        cases hfl : e.flavor with
        | spawn => exact absurd hfl hflav
        | blocking =>
            cases henv : env.replyOutcome <;>
              simp [dispatch, hfind, hdec, hfl, arm_blocking, Sender.reply,
                henv, error, Sender.reply_keyed, Event.isSentReply,
                Event.isErrorSend]
        | async =>
            cases henv : env.replyOutcome <;>
              simp [dispatch, hfind, hdec, hfl, arm_async, Sender.reply,
                henv, error, Sender.reply_keyed, Event.isSentReply,
                Event.isErrorSend]
  · intro table sc env ctx hdr body e req hfind hflav hdec
    cases hcs : env.canSpawn <;>
      simp [dispatch, hfind, hdec, hflav, arm_spawn, hcs, error,
        Sender.reply_keyed, Event.isReplyAttempt, Event.isErrorSend,
        Event.isSpawned]

/-- Witness for C4: a blocking frame yields exactly one frame; a detached
frame under a saturated scheduler yields no reply attempt and one
`FailedToSpawn` error. -/
theorem claim_C4_witness :
    ((dispatch testTable TestContext.spawn_ctxt (Env.mk TxOutcome.ok true true)
        (TestContext.mk 0 0) (WireHeader.mk deltaKey 3) [2]).2.countP
        Event.isSentReply
      + (dispatch testTable TestContext.spawn_ctxt (Env.mk TxOutcome.ok true true)
        (TestContext.mk 0 0) (WireHeader.mk deltaKey 3) [2]).2.countP
        Event.isErrorSend = 1)
    ∧ ((dispatch testTable TestContext.spawn_ctxt (Env.mk TxOutcome.ok true false)
        (TestContext.mk 0 0) (WireHeader.mk epsilonKey 4) [2]).2.countP
        Event.isReplyAttempt = 0
      ∧ (dispatch testTable TestContext.spawn_ctxt (Env.mk TxOutcome.ok true false)
        (TestContext.mk 0 0) (WireHeader.mk epsilonKey 4) [2]).2.filter
        Event.isErrorSend
        = (if (Env.mk TxOutcome.ok true false).canSpawn then []
           else [Event.errorTx ERROR_KEY 4 WireError.FailedToSpawn true])) :=
  ⟨claim_C4_one_frame_per_call.1 testTable TestContext.spawn_ctxt
      (Env.mk TxOutcome.ok true true) (TestContext.mk 0 0)
      (WireHeader.mk deltaKey 3) [2] deltaEntry rfl (by decide),
   claim_C4_one_frame_per_call.2 testTable TestContext.spawn_ctxt
      (Env.mk TxOutcome.ok true false) (TestContext.mk 0 0)
      (WireHeader.mk epsilonKey 4) [2] epsilonEntry 2 rfl rfl rfl⟩

/-- C5: for every detached-flavor dispatch where the scheduler cannot admit
the new unit of work, `dispatch` sends exactly one `FailedToSpawn` error
frame with the original `seq_no`; the trace contains no spawned unit and no
handler execution, so the handler body never runs. -/
theorem claim_C5_failed_to_spawn {C S Q R : Type}
    (table : List (EndpointEntry C S Q R)) (sc : C → C × S) (env : Env)
    (ctx : C) (hdr : WireHeader) (body : List Nat)
    (e : EndpointEntry C S Q R) (req : Q)
    (hfind : find_entry table hdr.key = some e)
    (hflav : e.flavor = Flavor.spawn)
    (hdec : e.from_bytes body = some req)
    (hspawn : env.canSpawn = false) :
    dispatch table sc env ctx hdr body
      = ((sc ctx).1, [Event.senderCloned,
          Event.errorTx ERROR_KEY hdr.seq_no WireError.FailedToSpawn
            env.errorTxOk]) := by
  simp [dispatch, hfind, hdec, hflav, arm_spawn, hspawn, error,
    Sender.reply_keyed]

/-- Witness for C5 at the epsilon endpoint with a saturated scheduler. -/
theorem claim_C5_witness :
    dispatch testTable TestContext.spawn_ctxt (Env.mk TxOutcome.ok true false)
      (TestContext.mk 1 2) (WireHeader.mk epsilonKey 11) [3]
      = (TestContext.mk 1 2, [Event.senderCloned,
          Event.errorTx ERROR_KEY 11 WireError.FailedToSpawn true]) :=
  claim_C5_failed_to_spawn _ _ _ _ _ _ epsilonEntry 3 rfl rfl rfl rfl

/-- C6: for every `seq_no` and `WireError`, the `error` operation attempts
exactly one transmission of an `ERROR_KEY`-keyed frame carrying
`(seq_no, error)`; the transmission result is discarded, so `error` yields
the same single attempt whether or not the transmission succeeded — it is a
total function that never fails, never retries and never reports
recursively. -/
theorem claim_C6_error_best_effort {S Q R : Type} (env : Env) (seq_no : Nat)
    (err : WireError) :
    error (S := S) (Q := Q) (R := R) env seq_no err
      = [Event.errorTx ERROR_KEY seq_no err env.errorTxOk]
    ∧ (error (S := S) (Q := Q) (R := R) env seq_no err).countP
        Event.isErrorSend = 1 := by
  refine ⟨rfl, ?_⟩
  simp [error, Sender.reply_keyed, Event.isErrorSend]

/-- C7: a registration table accepted at generation time has pairwise
distinct `REQ_KEY`s (the key-to-handler mapping is injective), and a table
containing a duplicate key is rejected by the generation step — there is no
runtime branch for it. -/
theorem claim_C7_key_uniqueness {C S Q R : Type}
    (table : List (EndpointEntry C S Q R)) :
    (∀ t2, build_routing_table table = some t2 →
      table.Pairwise (fun e1 e2 => e1.req_key ≠ e2.req_key))
    ∧ (¬ (table.map EndpointEntry.req_key).Nodup →
        build_routing_table table = none) := by
  constructor
  · intro t2 ht
    have hnd : (table.map EndpointEntry.req_key).Nodup := by
      by_contra hn
      simp [build_routing_table, hn] at ht
    simpa [List.Nodup, List.pairwise_map] using hnd
  · intro hn
    simp [build_routing_table, hn]

/-- Witness for C7: the `fake` table is accepted and its keys are pairwise
distinct; a table registering the delta endpoint twice is rejected. -/
theorem claim_C7_witness :
    testTable.Pairwise (fun e1 e2 => e1.req_key ≠ e2.req_key)
    ∧ build_routing_table [deltaEntry, deltaEntry] = none :=
  ⟨(claim_C7_key_uniqueness testTable).1 testTable rfl,
   (claim_C7_key_uniqueness [deltaEntry, deltaEntry]).2 (by decide)⟩

/-- C8: for every endpoint, header, decoded request, and pair of handlers
(one blocking, one suspending) computing equal responses from equal inputs,
the inline-blocking and inline-async arms produce identical behaviour: the
same resulting context and the same trace — the same reply frame on success
and the same `SerFailed` error frame on encoding failure. -/
theorem claim_C8_flavor_equivalence {C S Q R : Type}
    (hb ha : C → WireHeader → Q → C × R) (resp_key : Key) (env : Env)
    (ctx : C) (hdr : WireHeader) (req : Q)
    (hEq : ∀ c h r, hb c h r = ha c h r) :
    arm_blocking (S := S) hb resp_key env ctx hdr req
      = arm_async (S := S) ha resp_key env ctx hdr req := by
  have hfun : hb = ha := funext fun c => funext fun h => funext fun r => hEq c h r
  unfold arm_blocking arm_async
  rw [hfun]

/-- Witness for C8 at the delta handler, compared with itself registered as
a suspending handler. -/
theorem claim_C8_witness :
    arm_blocking (S := TestSpawnContext) deltaEntry.handler deltaEntry.resp_key
        (Env.mk TxOutcome.ok true true) (TestContext.mk 0 0)
        (WireHeader.mk deltaKey 1) 5
      = arm_async (S := TestSpawnContext) deltaEntry.handler deltaEntry.resp_key
        (Env.mk TxOutcome.ok true true) (TestContext.mk 0 0)
        (WireHeader.mk deltaKey 1) 5 :=
  claim_C8_flavor_equivalence _ _ _ _ _ _ _ (fun _ _ _ => rfl)

/-- C9: for every detached dispatch, the SpawnContext handed to the spawned
unit of work is an independently-owned snapshot: however the Dispatcher's
context is mutated after the spawn (any mutation `f`), the spawned event
still carries exactly the value projected from the context at spawn time. -/
theorem claim_C9_spawn_snapshot {C S Q R : Type}
    (table : List (EndpointEntry C S Q R)) (sc : C → C × S) (env : Env)
    (ctx : C) (hdr : WireHeader) (body : List Nat)
    (e : EndpointEntry C S Q R) (req : Q)
    (hfind : find_entry table hdr.key = some e)
    (hflav : e.flavor = Flavor.spawn)
    (hdec : e.from_bytes body = some req)
    (hspawn : env.canSpawn = true) :
    ∀ f : C → C,
      (dispatch_then_mutate table sc env ctx hdr body f).2.filter
          Event.isSpawned
        = [Event.spawned (sc ctx).2 hdr req]
      ∧ (dispatch_then_mutate table sc env ctx hdr body f).1
        = f ((sc ctx).1) := by
  intro f
  constructor <;>
    simp [dispatch_then_mutate, dispatch, hfind, hdec, hflav, arm_spawn,
      hspawn, Event.isSpawned]

/-- Witness for C9: after spawning at the epsilon endpoint the Dispatcher's
context is mutated, yet the spawned event still holds the snapshot
`TestSpawnContext { b := 2 }` taken before the mutation. -/
theorem claim_C9_witness :
    (dispatch_then_mutate testTable TestContext.spawn_ctxt
        (Env.mk TxOutcome.ok true true) (TestContext.mk 1 2)
        (WireHeader.mk epsilonKey 6) [3]
        (fun c => TestContext.mk (c.a + 50) (c.b + 50))).2.filter
        Event.isSpawned
      = [Event.spawned (TestSpawnContext.mk 2) (WireHeader.mk epsilonKey 6) 3]
    ∧ (dispatch_then_mutate testTable TestContext.spawn_ctxt
        (Env.mk TxOutcome.ok true true) (TestContext.mk 1 2)
        (WireHeader.mk epsilonKey 6) [3]
        (fun c => TestContext.mk (c.a + 50) (c.b + 50))).1
      = TestContext.mk 51 52 :=
  claim_C9_spawn_snapshot testTable TestContext.spawn_ctxt
    (Env.mk TxOutcome.ok true true) (TestContext.mk 1 2)
    (WireHeader.mk epsilonKey 6) [3] epsilonEntry 3 rfl rfl rfl rfl
    (fun c => TestContext.mk (c.a + 50) (c.b + 50))

/-- C10: in the detached arm the SpawnContext projection (which takes the
context by mutable reference) and the Sender clone are performed while the
task is built, before admission is attempted: even when admission fails and
`FailedToSpawn` is reported, the resulting context is the one produced by
`spawn_ctxt` and the trace begins with the sender clone — the error path
does not leave the context untouched. -/
theorem claim_C10_side_effects_on_failure {C S Q R : Type}
    (table : List (EndpointEntry C S Q R)) (sc : C → C × S) (env : Env)
    (ctx : C) (hdr : WireHeader) (body : List Nat)
    (e : EndpointEntry C S Q R) (req : Q)
    (hfind : find_entry table hdr.key = some e)
    (hflav : e.flavor = Flavor.spawn)
    (hdec : e.from_bytes body = some req)
    (hspawn : env.canSpawn = false) :
    (dispatch table sc env ctx hdr body).1 = (sc ctx).1
    ∧ (dispatch table sc env ctx hdr body).2.head?
      = some Event.senderCloned := by
  constructor <;>
    simp [dispatch, hfind, hdec, hflav, arm_spawn, hspawn, error,
      Sender.reply_keyed]

/-- Witness for C10: with a projection that also mutates the context, the
mutation (`a` incremented) is visible after a failed admission. -/
theorem claim_C10_witness :
    (dispatch testTable mutatingSpawnCtxt (Env.mk TxOutcome.ok true false)
        (TestContext.mk 0 2) (WireHeader.mk epsilonKey 8) [3]).1
      = TestContext.mk 1 2
    ∧ (dispatch testTable mutatingSpawnCtxt (Env.mk TxOutcome.ok true false)
        (TestContext.mk 0 2) (WireHeader.mk epsilonKey 8) [3]).2.head?
      = some Event.senderCloned :=
  claim_C10_side_effects_on_failure testTable mutatingSpawnCtxt
    (Env.mk TxOutcome.ok true false) (TestContext.mk 0 2)
    (WireHeader.mk epsilonKey 8) [3] epsilonEntry 3 rfl rfl rfl rfl

end PostcardRpc
